import Mathlib

/-!
Shallow embedding of `src/llmtuner/model/loader.py` (`load_model_and_tokenizer`)
from the LLaMA-Factory repository, together with theorems checking the
natural-language specification against it.

Modelling conventions:
* External collaborators (the transformers/trl/unsloth constructors, the
  patchers defined in other modules, the adapter initializer) are fields of an
  `Env` record of pure functions; fallible constructors return `Except Err`.
* Python's in-place mutation of `model_args` is embedded as explicit state
  passing: the pipeline returns the final `ModelArguments` value.
* Every `logger.info` / `logger.warning` call and every notable pipeline step
  is recorded as an `Event` in an output trace, one constructor per source
  log-site, in the order the source executes them.
* Python truthiness of `None`/empty containers is made explicit via `truthyList`
  and `truthyStr`.
-/

inductive DType
  | float16
  | bfloat16
  | float32
  deriving DecidableEq, Repr

/-- The fields of `ModelArguments` that `loader.py` reads or writes
(`model/loader.py` lines 37-135). -/
structure ModelArguments where
  model_name_or_path : String
  cache_dir : Option String
  model_revision : String
  hf_hub_token : Option String
  use_fast_tokenizer : Bool
  split_special_tokens : Bool
  model_max_length : Nat
  compute_dtype : DType
  quantization_bit : Option Nat
  adapter_name_or_path : Option (List String)
  use_unsloth : Bool
  deriving DecidableEq, Repr

/-- `FinetuningArguments` is only passed through to `init_adapter`; the loader
itself never inspects it, so one opaque field suffices. -/
structure FinetuningArguments where
  finetuning_type : String
  deriving DecidableEq, Repr

structure Tokenizer where
  tok_id : Nat
  padding_side : String
  deriving DecidableEq, Repr

/-- The configuration fields the loader reads (`getattr(config, "model_type")`,
`getattr(config, "rope_scaling")`). -/
structure Config where
  model_type : Option String
  rope_scaling : Option String
  deriving DecidableEq, Repr

/-- The `config_kwargs` dict built at `loader.py` lines 37-42. -/
structure ConfigKwargs where
  trust_remote_code : Bool
  cache_dir : Option String
  revision : String
  token : Option String
  deriving DecidableEq, Repr

structure Param where
  pname : String
  numel : Nat
  requires_grad : Bool
  deriving DecidableEq, Repr

structure VheadParams where
  payload : Nat
  deriving DecidableEq, Repr

/-- The observable state of a model handle: its parameters, dtype, quantization
metadata (`getattr(model, "quantization_method", None)`), provenance tags,
whether `add_model_tags` exists (`hasattr`), train/eval mode, and any value-head
state dict loaded into it. -/
structure Model where
  params : List Param
  dtype : DType
  quantization_method : Option String
  model_tags : List String
  supports_add_model_tags : Bool
  training : Bool
  loaded_vhead : Option VheadParams
  deriving DecidableEq, Repr

def Model.add_model_tags (m : Model) (ts : List String) : Model :=
  { m with model_tags := m.model_tags ++ ts }

/-- `model.requires_grad_(b)`: sets gradient tracking on every parameter. -/
def Model.requires_grad_ (m : Model) (b : Bool) : Model :=
  { m with params := m.params.map (fun p => { p with requires_grad := b }) }

/-- `model.to(dtype)`: casts the model to the given compute precision. -/
def Model.to (m : Model) (d : DType) : Model :=
  { m with dtype := d }

/-- `model.eval()`. -/
def Model.eval (m : Model) : Model :=
  { m with training := false }

/-- `model.train()`. -/
def Model.train (m : Model) : Model :=
  { m with training := true }

/-- `model.load_state_dict(vhead_params, strict=False)`. -/
def Model.load_state_dict (m : Model) (ps : VheadParams) : Model :=
  { m with loaded_vhead := some ps }

/-- Modelled from the spec: `count_parameters` lives in `extras/misc.py`, which
is not among the provided sources. Per the spec the Mode Finalizer "always
computes and reports trainable-parameter count and total-parameter count"; we
model it as the summed element count over gradient-tracking parameters and over
all parameters. -/
def count_parameters (m : Model) : Nat × Nat :=
  (((m.params.filter (fun p => p.requires_grad)).map (fun p => p.numel)).sum,
   ((m.params.map (fun p => p.numel)).sum))

/-- Python truthiness of an optional list (`None` and `[]` are falsy). -/
def truthyList : Option (List String) → Bool
  | none => false
  | some l => !l.isEmpty

/-- Python truthiness of an optional string (`None` and the empty string are
falsy). -/
def truthyStr : Option String → Bool
  | none => false
  | some s => !s.isEmpty

def llamaFamily : String := "llama"

def mistralFamily : String := "mistral"

def llamaFactoryTag : String := "llama-factory"

inductive ConstructorKind
  | fastLlama
  | fastMistral
  | standard
  deriving DecidableEq, Repr

/-- One constructor per source log-site / pipeline step of `loader.py`, emitted
in execution order:
* `constructed`: a model constructor returned (lines 70, 72, 82-88);
* `tagged`: `model.add_model_tags(["llama-factory"])` ran (line 94);
* `tag_warning`: `logger.warning_once` about missing tagging support (line 96);
* `unsloth_unsupported_warning`: line 74, carrying `config.model_type`;
* `unsloth_adapter_warning`: line 79;
* `patch_model_applied`: line 101, carrying the handle before and after;
* `register_autoclass_applied`: line 102;
* `init_adapter_applied`: line 104, carrying the handle passed in and the
  adapter list passed in via `model_args`;
* `valuehead_wrapped`: lines 107-108;
* `vhead_missing_info`: the informational line emitted by
  `load_valuehead_params` when no value head is found (spec-modelled);
* `vhead_loaded_info`: line 118;
* `param_report_info`: line 128, carrying both counts;
* `inference_expected_info`: line 135. -/
inductive Event
  | constructed (k : ConstructorKind)
  | tagged
  | tag_warning
  | unsloth_unsupported_warning (mt : Option String)
  | unsloth_adapter_warning
  | patch_model_applied (input output : Model)
  | register_autoclass_applied
  | init_adapter_applied (input : Model) (adapters : Option (List String))
  | valuehead_wrapped
  | vhead_missing_info (path : String)
  | vhead_loaded_info (path : String)
  | param_report_info (tp ap : Nat)
  | inference_expected_info
  deriving DecidableEq, Repr

/-- Severity of each event's log line, for events that are log lines. -/
def Event.isWarning : Event → Bool
  | Event.tag_warning => true
  | Event.unsloth_unsupported_warning _ => true
  | Event.unsloth_adapter_warning => true
  | _ => false

def Event.isInfoLog : Event → Bool
  | Event.vhead_missing_info _ => true
  | Event.vhead_loaded_info _ => true
  | Event.param_report_info _ _ => true
  | Event.inference_expected_info => true
  | _ => false

inductive Err
  | external (msg : String)
  | zeroDivisionError
  | indexError
  deriving DecidableEq, Repr

/-- The `unsloth_kwargs` dict built at `loader.py` lines 60-68. -/
structure UnslothKwargs where
  model_name : String
  max_seq_length : Nat
  dtype : DType
  load_in_4bit : Bool
  token : Option String
  device_map : String
  rope_scaling : Option String
  deriving DecidableEq, Repr

/-- External collaborators of the loader, as pure functions. Constructors and
the artifact resolver may fail (`Except`); the patchers and the adapter
initializer are arbitrary model/tokenizer/config transformers. -/
structure Env where
  deepspeed_zero3_enabled : Bool
  current_device : String
  try_download_model_from_ms : ModelArguments → Except Err Unit
  autoTokenizer_from_pretrained :
    String → Bool → Bool → String → ConfigKwargs → Except Err Tokenizer
  patch_tokenizer : Tokenizer → Tokenizer
  autoConfig_from_pretrained : String → ConfigKwargs → Except Err Config
  patch_config : Config → Tokenizer → ModelArguments → ConfigKwargs → Bool → Config
  fastLlamaModel_from_pretrained : UnslothKwargs → Except Err Model
  fastMistralModel_from_pretrained : UnslothKwargs → Except Err Model
  autoModelForCausalLM_from_pretrained :
    String → Config → DType → Bool → ConfigKwargs → Except Err Model
  patch_model : Model → Tokenizer → ModelArguments → Bool → Model
  init_adapter : Model → ModelArguments → FinetuningArguments → Bool → Model
  valuehead_from_pretrained : Model → Model
  patch_valuehead_model : Model → Model
  vhead_checkpoints : String → Option VheadParams

def rightSide : String := "right"

/-- Lines 37-42: the shared `config_kwargs`. -/
def configKwargsOf (args : ModelArguments) : ConfigKwargs :=
  { trust_remote_code := true
    cache_dir := args.cache_dir
    revision := args.model_revision
    token := args.hf_hub_token }

/-- Lines 60-68: the `unsloth_kwargs`. -/
def unslothKwargsOf (env : Env) (config : Config) (args : ModelArguments) :
    UnslothKwargs :=
  { model_name := args.model_name_or_path
    max_seq_length := args.model_max_length
    dtype := args.compute_dtype
    load_in_4bit := args.quantization_bit == some 4
    token := args.hf_hub_token
    device_map := env.current_device
    rope_scaling := config.rope_scaling }

/-- Lines 69-75: dispatch on `config.model_type` inside the
`is_trainable and model_args.use_unsloth` branch. On an unsupported family the
warning is logged and `model_args.use_unsloth` is cleared; `model` stays
`None`. -/
def unsloth_select (env : Env) (config : Config) (args : ModelArguments) :
    Except Err (Option Model × ModelArguments × List Event) :=
  if config.model_type == some llamaFamily then
    match env.fastLlamaModel_from_pretrained (unslothKwargsOf env config args) with
    | Except.error e => Except.error e
    | Except.ok m =>
      Except.ok (some m, args, [Event.constructed ConstructorKind.fastLlama])
  else if config.model_type == some mistralFamily then
    match env.fastMistralModel_from_pretrained (unslothKwargsOf env config args) with
    | Except.error e => Except.error e
    | Except.ok m =>
      Except.ok (some m, args, [Event.constructed ConstructorKind.fastMistral])
  else
    Except.ok (none, { args with use_unsloth := false },
      [Event.unsloth_unsupported_warning config.model_type])

/-- Lines 77-79: still inside the unsloth branch, `model_args.adapter_name_or_path`
is cleared (with a warning) whenever it is truthy — regardless of which family
case was taken above. -/
def clear_adapter_if_requested (r : Option Model × ModelArguments × List Event) :
    Option Model × ModelArguments × List Event :=
  if truthyList r.2.1.adapter_name_or_path then
    (r.1, { r.2.1 with adapter_name_or_path := none },
      r.2.2 ++ [Event.unsloth_adapter_warning])
  else r

/-- Lines 81-99: the standard constructor (`AutoModelForCausalLM.from_pretrained`)
followed by best-effort provenance tagging. -/
def standard_construct (env : Env) (config : Config) (ck : ConfigKwargs)
    (args : ModelArguments) : Except Err (Model × List Event) :=
  match env.autoModelForCausalLM_from_pretrained args.model_name_or_path config
      args.compute_dtype (!env.deepspeed_zero3_enabled) ck with
  | Except.error e => Except.error e
  | Except.ok m =>
    if m.supports_add_model_tags then
      Except.ok (m.add_model_tags [llamaFactoryTag],
        [Event.constructed ConstructorKind.standard, Event.tagged])
    else
      Except.ok (m,
        [Event.constructed ConstructorKind.standard, Event.tag_warning])

/-- Lines 56-99: the Model Constructor Selector. `model = None`; the accelerated
branch runs only when `is_trainable and model_args.use_unsloth`; afterwards the
standard constructor runs iff `model is None`. -/
def construct_model (env : Env) (config : Config) (ck : ConfigKwargs)
    (args : ModelArguments) (is_trainable : Bool) :
    Except Err (Model × ModelArguments × List Event) :=
  match (if is_trainable && args.use_unsloth then
          Except.map clear_adapter_if_requested (unsloth_select env config args)
        else Except.ok (none, args, [])) with
  | Except.error e => Except.error e
  | Except.ok (some m, args1, tr) => Except.ok (m, args1, tr)
  | Except.ok (none, args1, tr) =>
    match standard_construct env config ck args1 with
    | Except.error e => Except.error e
    | Except.ok (m, tr2) => Except.ok (m, args1, tr ++ tr2)

/-- Lines 110-113: resolution of the value-head restoration source. Python's
`adapter_name_or_path[-1]` raises `IndexError` on a present-but-empty list,
embedded as `Err.indexError`. -/
def resolve_vhead_path (args : ModelArguments) : Except Err String :=
  match args.adapter_name_or_path with
  | some l =>
    match l.getLast? with
    | some p => Except.ok p
    | none => Except.error Err.indexError
  | none => Except.ok args.model_name_or_path

/-- Modelled from the spec: `load_valuehead_params` lives in `model/utils.py`,
which is not among the provided sources. Per the spec it "attempts to load head
weights from that source; if absent, proceeds with a freshly initialized head",
and the missing case "must be observably flagged as no weights found" in logged
output; we model it as a lookup in the environment's checkpoint store that logs
an informational line when nothing is found. -/
def load_valuehead_params (env : Env) (path : String) (_args : ModelArguments) :
    Option VheadParams × List Event :=
  match env.vhead_checkpoints path with
  | some ps => (some ps, [])
  | none => (none, [Event.vhead_missing_info path])

/-- Lines 106-118: the Value-Head Composer. Wraps the model, patches the
wrapper, resolves the restoration source, and loads the state dict only when
weights were found (logging the loaded path in that case). -/
def vhead_stage (env : Env) (m : Model) (args : ModelArguments) :
    Except Err (Model × List Event) :=
  match resolve_vhead_path args with
  | Except.error e => Except.error e
  | Except.ok vhead_path =>
    match load_valuehead_params env vhead_path args with
    | (some ps, trL) =>
      Except.ok ((env.patch_valuehead_model (env.valuehead_from_pretrained m)).load_state_dict ps,
        [Event.valuehead_wrapped] ++ trL ++ [Event.vhead_loaded_info vhead_path])
    | (none, trL) =>
      Except.ok (env.patch_valuehead_model (env.valuehead_from_pretrained m),
        [Event.valuehead_wrapped] ++ trL)

/-- Lines 120-125: the Mode Finalizer. When not trainable: freeze all
parameters, cast to the compute dtype unless `model.quantization_method` is
truthy, and switch to eval mode; otherwise switch to train mode. -/
def finalize_mode (m : Model) (compute_dtype : DType) (is_trainable : Bool) :
    Model :=
  if !is_trainable then
    (if !truthyStr (m.requires_grad_ false).quantization_method
     then (m.requires_grad_ false).to compute_dtype
     else m.requires_grad_ false).eval
  else
    m.train

/-- Lines 127-135: the parameter-count report. Python computes
`100 * trainable_params / all_param`, which raises `ZeroDivisionError` when
`all_param == 0`; we embed the raised error and record both counts in the
report event (the printed percentage is a formatting detail of the message).
The extra informational line at line 135 is emitted whenever
`not is_trainable`, independently of the counts. -/
def report_stage (m : Model) (is_trainable : Bool) : Except Err (List Event) :=
  if (count_parameters m).2 == 0 then Except.error Err.zeroDivisionError
  else
    Except.ok ([Event.param_report_info (count_parameters m).1 (count_parameters m).2] ++
      (if !is_trainable then [Event.inference_expected_info] else []))

/-- The observable outcome of a successful run: the Python function returns
`(model, tokenizer)`; `final_args` is the caller-visible state of the mutable
`model_args` object after the call, and `trace` the emitted log/step events. -/
structure LoadOk where
  model : Model
  tokenizer : Tokenizer
  final_args : ModelArguments
  trace : List Event
  deriving DecidableEq, Repr

/-- Lines 23-137: `load_model_and_tokenizer`. The source's local Python
variables (`config_kwargs`, `tokenizer`, `config`, the successive `model`
rebindings) are inlined as the corresponding pure expressions. -/
def load_model_and_tokenizer (env : Env) (model_args : ModelArguments)
    (finetuning_args : FinetuningArguments) (is_trainable : Bool)
    (add_valuehead : Bool) : Except Err LoadOk :=
  match env.try_download_model_from_ms model_args with
  | Except.error e => Except.error e
  | Except.ok _ =>
    match env.autoTokenizer_from_pretrained model_args.model_name_or_path
        model_args.use_fast_tokenizer model_args.split_special_tokens rightSide
        (configKwargsOf model_args) with
    | Except.error e => Except.error e
    | Except.ok tokenizer0 =>
      match env.autoConfig_from_pretrained model_args.model_name_or_path
          (configKwargsOf model_args) with
      | Except.error e => Except.error e
      | Except.ok config0 =>
        match construct_model env
            (env.patch_config config0 (env.patch_tokenizer tokenizer0) model_args
              (configKwargsOf model_args) is_trainable)
            (configKwargsOf model_args) model_args is_trainable with
        | Except.error e => Except.error e
        | Except.ok (model0, args1, tr1) =>
          match (if add_valuehead then
                  vhead_stage env
                    (env.init_adapter
                      (env.patch_model model0 (env.patch_tokenizer tokenizer0) args1 is_trainable)
                      args1 finetuning_args is_trainable) args1
                else
                  Except.ok
                    (env.init_adapter
                      (env.patch_model model0 (env.patch_tokenizer tokenizer0) args1 is_trainable)
                      args1 finetuning_args is_trainable, [])) with
          | Except.error e => Except.error e
          | Except.ok (model3, trV) =>
            match report_stage (finalize_mode model3 args1.compute_dtype is_trainable)
                is_trainable with
            | Except.error e => Except.error e
            | Except.ok trR =>
              Except.ok { model := finalize_mode model3 args1.compute_dtype is_trainable
                          tokenizer := env.patch_tokenizer tokenizer0
                          final_args := args1
                          trace := (tr1 ++
                            [Event.patch_model_applied model0
                              (env.patch_model model0 (env.patch_tokenizer tokenizer0) args1 is_trainable),
                             Event.register_autoclass_applied,
                             Event.init_adapter_applied
                               (env.patch_model model0 (env.patch_tokenizer tokenizer0) args1 is_trainable)
                               args1.adapter_name_or_path]) ++ trV ++ trR }

/-- Events recording the adapter list handed to `init_adapter`, in trace order. -/
def init_adapter_args (tr : List Event) : List (Option (List String)) :=
  tr.filterMap (fun e =>
    match e with
    | Event.init_adapter_applied _ a => some a
    | _ => none)

/-- Events recording which constructor built the model, in trace order. -/
def constructed_kinds (tr : List Event) : List ConstructorKind :=
  tr.filterMap (fun e =>
    match e with
    | Event.constructed k => some k
    | _ => none)

def warning_events (tr : List Event) : List Event :=
  tr.filter (fun e => e.isWarning)

def allFrozen (m : Model) : Bool :=
  m.params.all (fun p => !p.requires_grad)

/-- Concrete sample data used to instantiate the theorems. -/
def pFoo : String := "transformer.h.0.weight"

def pBar : String := "lm_head.weight"

def baseModel : Model :=
  { params := [{ pname := pFoo, numel := 3, requires_grad := true },
               { pname := pBar, numel := 5, requires_grad := false }]
    dtype := DType.float32
    quantization_method := none
    model_tags := []
    supports_add_model_tags := true
    training := false
    loaded_vhead := none }

def fastModel : Model :=
  { baseModel with dtype := DType.bfloat16, supports_add_model_tags := false }

def emptyModel : Model :=
  { baseModel with params := [] }

def tok0 : Tokenizer :=
  { tok_id := 1, padding_side := rightSide }

def qwenFamily : String := "qwen"

def nameM : String := "org/test-model"

def revMain : String := "main"

def adapterPath1 : String := "saves/adapter-a"

def adapterPath2 : String := "saves/adapter-b"

def args0 : ModelArguments :=
  { model_name_or_path := nameM
    cache_dir := none
    model_revision := revMain
    hf_hub_token := none
    use_fast_tokenizer := true
    split_special_tokens := false
    model_max_length := 1024
    compute_dtype := DType.float16
    quantization_bit := none
    adapter_name_or_path := none
    use_unsloth := false }

def argsUnsloth : ModelArguments :=
  { args0 with use_unsloth := true }

def argsUnslothAdapter : ModelArguments :=
  { args0 with use_unsloth := true,
               adapter_name_or_path := some [adapterPath1, adapterPath2] }

def argsAdapter : ModelArguments :=
  { args0 with adapter_name_or_path := some [adapterPath1, adapterPath2] }

def ft0 : FinetuningArguments :=
  { finetuning_type := "lora" }

def configLlama : Config :=
  { model_type := some llamaFamily, rope_scaling := none }

def configQwen : Config :=
  { model_type := some qwenFamily, rope_scaling := none }

/-- A baseline environment: a llama-family config, all collaborators succeed,
all patchers are the identity, no value-head checkpoints exist anywhere. -/
def env0 : Env :=
  { deepspeed_zero3_enabled := false
    current_device := "cuda:0"
    try_download_model_from_ms := fun _ => Except.ok ()
    autoTokenizer_from_pretrained := fun _ _ _ _ _ => Except.ok tok0
    patch_tokenizer := fun t => t
    autoConfig_from_pretrained := fun _ _ => Except.ok configLlama
    patch_config := fun c _ _ _ _ => c
    fastLlamaModel_from_pretrained := fun _ => Except.ok fastModel
    fastMistralModel_from_pretrained := fun _ => Except.ok fastModel
    autoModelForCausalLM_from_pretrained := fun _ _ d _ _ =>
      Except.ok { baseModel with dtype := d }
    patch_model := fun m _ _ _ => m
    init_adapter := fun m _ _ _ => m
    valuehead_from_pretrained := fun m => m
    patch_valuehead_model := fun m => m
    vhead_checkpoints := fun _ => none }

/-- Like `env0` but the resolved config reports an unsupported family. -/
def envQwen : Env :=
  { env0 with autoConfig_from_pretrained := fun _ _ => Except.ok configQwen }

/-- Like `env0` but the adapter initializer freezes every parameter. -/
def envFrozen : Env :=
  { env0 with init_adapter := fun m _ _ _ => m.requires_grad_ false }

/-- Like `env0` but the standard constructor yields a model with no
parameters. -/
def envZeroParams : Env :=
  { env0 with autoModelForCausalLM_from_pretrained := fun _ _ _ _ _ =>
      Except.ok emptyModel }

/-- Like `env0` but a value-head checkpoint exists at `adapterPath2`. -/
def envCkpt : Env :=
  { env0 with vhead_checkpoints := fun p =>
      if p == adapterPath2 then some { payload := 7 } else none }

def errDownload : Err := Err.external "download failed"

def errTok : Err := Err.external "tokenizer failed"

def errCfg : Err := Err.external "config failed"

def errModel : Err := Err.external "model construction failed"

def envDownloadFail : Env :=
  { env0 with try_download_model_from_ms := fun _ => Except.error errDownload }

def envTokFail : Env :=
  { env0 with autoTokenizer_from_pretrained := fun _ _ _ _ _ =>
      Except.error errTok }

def envCfgFail : Env :=
  { env0 with autoConfig_from_pretrained := fun _ _ => Except.error errCfg }

def envModelFail : Env :=
  { env0 with autoModelForCausalLM_from_pretrained := fun _ _ _ _ _ =>
      Except.error errModel }

def ck0 : ConfigKwargs := configKwargsOf args0

/-- Fallback value used only to project successful runs out of `Except`. -/
def fallbackLoadOk : LoadOk :=
  { model := baseModel, tokenizer := tok0, final_args := args0, trace := [] }

/-- The inference-mode baseline run. -/
def run_inf : LoadOk :=
  ((load_model_and_tokenizer env0 args0 ft0 false false).toOption).getD fallbackLoadOk

/-- A trainable run with the accelerated opt-in, an adapter request, and an
unsupported model family. -/
def run_fallback_adapter : LoadOk :=
  ((load_model_and_tokenizer envQwen argsUnslothAdapter ft0 true false).toOption).getD
    fallbackLoadOk

/-- Constructor-selector run: unsupported family with the opt-in set. -/
def cmQwen : Model × ModelArguments × List Event :=
  ((construct_model env0 configQwen ck0 argsUnsloth true).toOption).getD
    (baseModel, args0, [])

/-- Constructor-selector run: supported family with the opt-in set. -/
def cmLlama : Model × ModelArguments × List Event :=
  ((construct_model env0 configLlama ck0 argsUnsloth true).toOption).getD
    (baseModel, args0, [])

instance {e a : Type} [DecidableEq e] [DecidableEq a] : DecidableEq (Except e a) :=
  fun x y =>
  match x, y with
  | Except.error e1, Except.error e2 =>
    if h : e1 = e2 then Decidable.isTrue (by rw [h])
    else Decidable.isFalse (by intro hc; injection hc; contradiction)
  | Except.ok v1, Except.ok v2 =>
    if h : v1 = v2 then Decidable.isTrue (by rw [h])
    else Decidable.isFalse (by intro hc; injection hc; contradiction)
  | Except.error e1, Except.ok v2 =>
    Decidable.isFalse (fun hc => Except.noConfusion hc)
  | Except.ok v1, Except.error e2 =>
    Decidable.isFalse (fun hc => Except.noConfusion hc)

/-! Inversion principles used by the theorems below. -/

theorem load_ok_elim (env : Env) (args : ModelArguments) (ft : FinetuningArguments)
    (it vh : Bool) (r : LoadOk)
    (h : load_model_and_tokenizer env args ft it vh = Except.ok r) :
    ∃ tk0 cfg0 m0 a1 tr1 m3 trV trR,
      env.try_download_model_from_ms args = Except.ok () ∧
      env.autoTokenizer_from_pretrained args.model_name_or_path
        args.use_fast_tokenizer args.split_special_tokens rightSide
        (configKwargsOf args) = Except.ok tk0 ∧
      env.autoConfig_from_pretrained args.model_name_or_path
        (configKwargsOf args) = Except.ok cfg0 ∧
      construct_model env
        (env.patch_config cfg0 (env.patch_tokenizer tk0) args (configKwargsOf args) it)
        (configKwargsOf args) args it = Except.ok (m0, a1, tr1) ∧
      (if vh then
        vhead_stage env
          (env.init_adapter (env.patch_model m0 (env.patch_tokenizer tk0) a1 it) a1 ft it) a1
      else
        Except.ok
          (env.init_adapter (env.patch_model m0 (env.patch_tokenizer tk0) a1 it) a1 ft it, [])) =
        Except.ok (m3, trV) ∧
      report_stage (finalize_mode m3 a1.compute_dtype it) it = Except.ok trR ∧
      r = { model := finalize_mode m3 a1.compute_dtype it
            tokenizer := env.patch_tokenizer tk0
            final_args := a1
            trace := (tr1 ++
              [Event.patch_model_applied m0 (env.patch_model m0 (env.patch_tokenizer tk0) a1 it),
               Event.register_autoclass_applied,
               Event.init_adapter_applied (env.patch_model m0 (env.patch_tokenizer tk0) a1 it)
                 a1.adapter_name_or_path]) ++ trV ++ trR } := by
  unfold load_model_and_tokenizer at h
  repeat' split at h
  all_goals first
    | exact Except.noConfusion h
    | (injection h with h
       subst h
       rename_i x5 u htd x4 tk0 htk x3 cfg0 hcfg x2 m0 a1 tr1 hcm x1 m3 trV hvh x0 trR hrp
       exact ⟨tk0, cfg0, m0, a1, tr1, m3, trV, trR, htd, htk, hcfg, hcm, hvh, hrp, rfl⟩)

theorem unsloth_select_elim (env : Env) (c : Config) (args : ModelArguments)
    (om : Option Model) (a1 : ModelArguments) (tr : List Event)
    (h : unsloth_select env c args = Except.ok (om, a1, tr)) :
    (c.model_type = some llamaFamily ∧ ∃ m,
      env.fastLlamaModel_from_pretrained (unslothKwargsOf env c args) = Except.ok m ∧
      om = some m ∧ a1 = args ∧ tr = [Event.constructed ConstructorKind.fastLlama]) ∨
    (c.model_type ≠ some llamaFamily ∧ c.model_type = some mistralFamily ∧ ∃ m,
      env.fastMistralModel_from_pretrained (unslothKwargsOf env c args) = Except.ok m ∧
      om = some m ∧ a1 = args ∧ tr = [Event.constructed ConstructorKind.fastMistral]) ∨
    (c.model_type ≠ some llamaFamily ∧ c.model_type ≠ some mistralFamily ∧
      om = none ∧ a1 = { args with use_unsloth := false } ∧
      tr = [Event.unsloth_unsupported_warning c.model_type]) := by
  unfold unsloth_select at h
  repeat' split at h
  all_goals first
    | exact Except.noConfusion h
    | (injection h with h
       injection h
       subst_vars
       simp_all)

theorem standard_construct_elim (env : Env) (c : Config) (ck : ConfigKwargs)
    (args : ModelArguments) (m : Model) (tr : List Event)
    (h : standard_construct env c ck args = Except.ok (m, tr)) :
    ∃ m0, env.autoModelForCausalLM_from_pretrained args.model_name_or_path c
        args.compute_dtype (!env.deepspeed_zero3_enabled) ck = Except.ok m0 ∧
      ((m0.supports_add_model_tags = true ∧ m = m0.add_model_tags [llamaFactoryTag] ∧
        tr = [Event.constructed ConstructorKind.standard, Event.tagged]) ∨
       (m0.supports_add_model_tags = false ∧ m = m0 ∧
        tr = [Event.constructed ConstructorKind.standard, Event.tag_warning])) := by
  unfold standard_construct at h
  repeat' split at h
  all_goals first
    | exact Except.noConfusion h
    | (injection h with h
       injection h
       subst_vars
       simp_all)

theorem construct_model_elim (env : Env) (c : Config) (ck : ConfigKwargs)
    (args : ModelArguments) (it : Bool) (m : Model) (a1 : ModelArguments)
    (tr : List Event)
    (h : construct_model env c ck args it = Except.ok (m, a1, tr)) :
    ((it && args.use_unsloth) = false ∧ a1 = args ∧
      ∃ trS, standard_construct env c ck args = Except.ok (m, trS) ∧ tr = trS) ∨
    ((it && args.use_unsloth) = true ∧
      ∃ om a2 tr2, unsloth_select env c args = Except.ok (om, a2, tr2) ∧
        a1 = (clear_adapter_if_requested (om, a2, tr2)).2.1 ∧
        ((om = some m ∧ tr = (clear_adapter_if_requested (om, a2, tr2)).2.2) ∨
         (om = none ∧ ∃ trS,
           standard_construct env c ck a1 = Except.ok (m, trS) ∧
           tr = (clear_adapter_if_requested (om, a2, tr2)).2.2 ++ trS))) := by
  unfold construct_model at h
  by_cases hc : (it && args.use_unsloth) = true
  · rw [if_pos hc] at h
    rcases hu : unsloth_select env c args with e | ⟨om, a2, tr2⟩
    · rw [hu] at h
      exact Except.noConfusion h
    · rw [hu] at h
      simp only [Except.map] at h
      rcases hcc : clear_adapter_if_requested (om, a2, tr2) with ⟨om2, a3, tr3⟩
      have hom : om2 = om := by
        have h1 : (clear_adapter_if_requested (om, a2, tr2)).1 = om := by
          unfold clear_adapter_if_requested
          split <;> rfl
        rw [hcc] at h1
        exact h1
      rw [hom] at hcc
      rw [hcc] at h
      cases om with
      | some mm =>
        injection h with h
        injection h with h1 h2
        injection h2 with h2 h3
        subst_vars
        exact Or.inr ⟨hc, some mm, a2, tr2, rfl, by rw [hcc], Or.inl ⟨rfl, by rw [hcc]⟩⟩
      | none =>
        dsimp only [] at h
        rcases hS : standard_construct env c ck a3 with e | ⟨mS, trS⟩
        · rw [hS] at h
          exact Except.noConfusion h
        · rw [hS] at h
          injection h with h
          injection h with h1 h2
          injection h2 with h2 h3
          subst_vars
          refine Or.inr ⟨hc, none, a2, tr2, rfl, by rw [hcc],
            Or.inr ⟨rfl, trS, ?_, by rw [hcc]⟩⟩
          exact hS
  · rw [if_neg hc] at h
    dsimp only [] at h
    rcases hS : standard_construct env c ck args with e | ⟨mS, trS⟩
    · rw [hS] at h
      exact Except.noConfusion h
    · rw [hS] at h
      injection h with h
      injection h with h1 h2
      injection h2 with h2 h3
      subst_vars
      refine Or.inl ⟨by simpa using hc, rfl, trS, ?_, by simp⟩
      rfl

theorem vhead_stage_elim (env : Env) (m : Model) (args : ModelArguments)
    (m3 : Model) (trV : List Event)
    (h : vhead_stage env m args = Except.ok (m3, trV)) :
    ∃ p, resolve_vhead_path args = Except.ok p ∧
      ((env.vhead_checkpoints p = none ∧
        m3 = env.patch_valuehead_model (env.valuehead_from_pretrained m) ∧
        trV = [Event.valuehead_wrapped, Event.vhead_missing_info p]) ∨
       (∃ ps, env.vhead_checkpoints p = some ps ∧
        m3 = (env.patch_valuehead_model (env.valuehead_from_pretrained m)).load_state_dict ps ∧
        trV = [Event.valuehead_wrapped, Event.vhead_loaded_info p])) := by
  unfold vhead_stage at h
  rcases hp : resolve_vhead_path args with e | p
  · rw [hp] at h
    exact Except.noConfusion h
  · rw [hp] at h
    unfold load_valuehead_params at h
    dsimp only [] at h
    rcases hcp : env.vhead_checkpoints p with _ | ps <;> rw [hcp] at h <;>
      dsimp only [] at h <;>
      injection h with h <;> injection h with h1 h2 <;> subst_vars
    · exact ⟨p, rfl, Or.inl ⟨hcp, rfl, rfl⟩⟩
    · exact ⟨p, rfl, Or.inr ⟨ps, hcp, rfl, rfl⟩⟩

theorem report_stage_elim (m : Model) (it : Bool) (trR : List Event)
    (h : report_stage m it = Except.ok trR) :
    (count_parameters m).2 ≠ 0 ∧
    trR = [Event.param_report_info (count_parameters m).1 (count_parameters m).2] ++
      (if !it then [Event.inference_expected_info] else []) := by
  unfold report_stage at h
  split at h
  · exact Except.noConfusion h
  · injection h with h
    subst_vars
    simp_all

theorem finalize_mode_not_trainable (m : Model) (d : DType) :
    (finalize_mode m d false).training = false ∧
    allFrozen (finalize_mode m d false) = true ∧
    (finalize_mode m d false).quantization_method = m.quantization_method ∧
    (finalize_mode m d false).dtype =
      (if truthyStr m.quantization_method = false then d else m.dtype) ∧
    (finalize_mode m d false).params =
      m.params.map (fun p => { p with requires_grad := false }) := by
  unfold finalize_mode Model.requires_grad_ Model.to Model.eval allFrozen
  by_cases hq : truthyStr m.quantization_method = false <;> simp [hq, List.all_map]

theorem finalize_mode_trainable (m : Model) (d : DType) :
    finalize_mode m d true = m.train := by
  unfold finalize_mode
  simp

theorem standard_construct_congr (env : Env) (c : Config) (ck : ConfigKwargs)
    (a b : ModelArguments) (h1 : a.model_name_or_path = b.model_name_or_path)
    (h2 : a.compute_dtype = b.compute_dtype) :
    standard_construct env c ck a = standard_construct env c ck b := by
  unfold standard_construct
  rw [h1, h2]

theorem construct_model_of_standard (env : Env) (c : Config) (ck : ConfigKwargs)
    (args : ModelArguments) (it : Bool) (m : Model) (trS : List Event)
    (hu : args.use_unsloth = false)
    (hS : standard_construct env c ck args = Except.ok (m, trS)) :
    construct_model env c ck args it = Except.ok (m, args, trS) := by
  unfold construct_model
  rw [hu]
  simp [hS]

theorem construct_model_trace_filters (env : Env) (c : Config) (ck : ConfigKwargs)
    (args : ModelArguments) (it : Bool) (m : Model) (a1 : ModelArguments)
    (tr : List Event)
    (h : construct_model env c ck args it = Except.ok (m, a1, tr)) :
    init_adapter_args tr = [] ∧
    Event.inference_expected_info ∉ tr ∧
    (∀ tp ap, Event.param_report_info tp ap ∉ tr) := by
  rcases construct_model_elim env c ck args it m a1 tr h with
    ⟨hc, ha, trS, hS, htr⟩ | ⟨hc, om, a2, tr2, hu, ha, hrest⟩
  · rcases standard_construct_elim env c ck args m trS hS with ⟨m0, hm0, hcase⟩
    rcases hcase with ⟨_, _, htrS⟩ | ⟨_, _, htrS⟩ <;> subst htr htrS <;>
      simp [init_adapter_args]
  · have htr2sh : tr2 = [Event.constructed ConstructorKind.fastLlama] ∨
        tr2 = [Event.constructed ConstructorKind.fastMistral] ∨
        tr2 = [Event.unsloth_unsupported_warning c.model_type] := by
      rcases unsloth_select_elim env c args om a2 tr2 hu with
        ⟨_, mm, _, _, _, htr2⟩ | ⟨_, _, mm, _, _, _, htr2⟩ | ⟨_, _, _, _, htr2⟩ <;> tauto
    have hcl : (clear_adapter_if_requested (om, a2, tr2)).2.2 = tr2 ∨
        (clear_adapter_if_requested (om, a2, tr2)).2.2 =
          tr2 ++ [Event.unsloth_adapter_warning] := by
      unfold clear_adapter_if_requested
      split <;> simp
    rcases hrest with ⟨hsome, htr⟩ | ⟨hnone, trS, hS, htr⟩
    · subst htr
      rcases hcl with hcl | hcl <;> rw [hcl] <;>
        rcases htr2sh with h2 | h2 | h2 <;> subst h2 <;> simp [init_adapter_args]
    · rcases standard_construct_elim env c ck a1 m trS hS with ⟨m0, hm0, hcase⟩
      subst htr
      rcases hcase with ⟨_, _, htrS⟩ | ⟨_, _, htrS⟩ <;> subst htrS <;>
        rcases hcl with hcl | hcl <;> rw [hcl] <;>
        rcases htr2sh with h2 | h2 | h2 <;> subst h2 <;> simp [init_adapter_args]

theorem construct_model_has_constructed (env : Env) (c : Config) (ck : ConfigKwargs)
    (args : ModelArguments) (it : Bool) (m : Model) (a1 : ModelArguments)
    (tr : List Event)
    (h : construct_model env c ck args it = Except.ok (m, a1, tr)) :
    ∃ k, Event.constructed k ∈ tr := by
  rcases construct_model_elim env c ck args it m a1 tr h with
    ⟨hc, ha, trS, hS, htr⟩ | ⟨hc, om, a2, tr2, hu, ha, hrest⟩
  · rcases standard_construct_elim env c ck args m trS hS with ⟨m0, hm0, hcase⟩
    rcases hcase with ⟨_, _, htrS⟩ | ⟨_, _, htrS⟩ <;> subst htr htrS <;>
      exact ⟨ConstructorKind.standard, by simp⟩
  · have hcl : (clear_adapter_if_requested (om, a2, tr2)).2.2 = tr2 ∨
        (clear_adapter_if_requested (om, a2, tr2)).2.2 =
          tr2 ++ [Event.unsloth_adapter_warning] := by
      unfold clear_adapter_if_requested
      split <;> simp
    rcases unsloth_select_elim env c args om a2 tr2 hu with
      ⟨_, mm, _, homm, _, htr2⟩ | ⟨_, _, mm, _, homm, _, htr2⟩ | ⟨_, _, homm, _, htr2⟩
    · rcases hrest with ⟨hsome, htr⟩ | ⟨hnone, _⟩
      · subst htr htr2
        rcases hcl with hcl | hcl <;> rw [hcl] <;>
          exact ⟨ConstructorKind.fastLlama, by simp⟩
      · rw [homm] at hnone
        exact Option.noConfusion hnone
    · rcases hrest with ⟨hsome, htr⟩ | ⟨hnone, _⟩
      · subst htr htr2
        rcases hcl with hcl | hcl <;> rw [hcl] <;>
          exact ⟨ConstructorKind.fastMistral, by simp⟩
      · rw [homm] at hnone
        exact Option.noConfusion hnone
    · rcases hrest with ⟨hsome, _⟩ | ⟨hnone, trS, hS, htr⟩
      · rw [homm] at hsome
        exact Option.noConfusion hsome
      · rcases standard_construct_elim env c ck a1 m trS hS with ⟨m0, hm0, hcase⟩
        rcases hcase with ⟨_, _, htrS⟩ | ⟨_, _, htrS⟩ <;> subst htr htrS <;>
          exact ⟨ConstructorKind.standard, by simp⟩

theorem construct_model_args_adapter (env : Env) (c : Config) (ck : ConfigKwargs)
    (args : ModelArguments) (it : Bool) (m : Model) (a1 : ModelArguments)
    (tr : List Event)
    (h : construct_model env c ck args it = Except.ok (m, a1, tr)) :
    a1.adapter_name_or_path =
      (if (it && args.use_unsloth && truthyList args.adapter_name_or_path) = true
       then none else args.adapter_name_or_path) ∧
    ((it && args.use_unsloth && truthyList args.adapter_name_or_path) = true →
      Event.unsloth_adapter_warning ∈ tr) ∧
    ((it && args.use_unsloth) = false → a1 = args) ∧
    (a1.use_unsloth = true → args.use_unsloth = true) ∧
    a1.model_name_or_path = args.model_name_or_path ∧
    a1.cache_dir = args.cache_dir ∧
    a1.model_revision = args.model_revision ∧
    a1.hf_hub_token = args.hf_hub_token ∧
    a1.use_fast_tokenizer = args.use_fast_tokenizer ∧
    a1.split_special_tokens = args.split_special_tokens ∧
    a1.model_max_length = args.model_max_length ∧
    a1.compute_dtype = args.compute_dtype ∧
    a1.quantization_bit = args.quantization_bit := by
  rcases construct_model_elim env c ck args it m a1 tr h with
    ⟨hc, ha, trS, hS, htr⟩ | ⟨hc, om, a2, tr2, hu, ha, hrest⟩
  · subst ha
    simp [hc]
  · have ha2 : a2 = args ∨ a2 = { args with use_unsloth := false } := by
      rcases unsloth_select_elim env c args om a2 tr2 hu with
        ⟨_, _, _, _, ha2, _⟩ | ⟨_, _, _, _, _, ha2, _⟩ | ⟨_, _, _, ha2, _⟩ <;>
        simp [ha2]
    have hmemw : (truthyList args.adapter_name_or_path = true →
        Event.unsloth_adapter_warning ∈ tr) := by
      intro hta
      have hta2 : truthyList a2.adapter_name_or_path = true := by
        rcases ha2 with h2 | h2 <;> subst h2 <;> simpa using hta
      rcases hrest with ⟨hsome, htr⟩ | ⟨hnone, trS, hS, htr⟩ <;> subst htr <;>
        (unfold clear_adapter_if_requested; rw [if_pos hta2]) <;> simp
    have hadap : a1.adapter_name_or_path =
        (if truthyList args.adapter_name_or_path = true then none
         else args.adapter_name_or_path) := by
      subst ha
      unfold clear_adapter_if_requested
      by_cases hta : truthyList args.adapter_name_or_path = true
      · have hta2 : truthyList a2.adapter_name_or_path = true := by
          rcases ha2 with h2 | h2 <;> subst h2 <;> simpa using hta
        rw [if_pos hta2, if_pos hta]
      · have hta2 : ¬ truthyList a2.adapter_name_or_path = true := by
          rcases ha2 with h2 | h2 <;> subst h2 <;> simpa using hta
        rw [if_neg hta2, if_neg hta]
        rcases ha2 with h2 | h2 <;> subst h2 <;> rfl
    refine ⟨by simp [hc, hadap], fun hcond => hmemw (by simp_all), fun hf => by
      rw [hf] at hc; exact absurd hc (by simp), ?_, ?_, ?_, ?_, ?_, ?_, ?_, ?_, ?_, ?_⟩ <;>
      subst ha <;>
      (unfold clear_adapter_if_requested; split) <;>
      rcases ha2 with h2 | h2 <;> subst h2 <;> simp

/-! Claim theorems. -/

/-- Claim C2: the accelerated constructor is selected only when trainable mode is
requested and the model family is llama or mistral; for an unsupported family
with the opt-in set, the selector warns, clears the opt-in flag, still reaches
the standard constructor, and the constructed handle has the same parameter set
as the one built by the standard constructor with the flag cleared. -/
theorem C2_selector_policy (env : Env) (c : Config) (ck : ConfigKwargs)
    (args : ModelArguments) (it : Bool) (m : Model) (a1 : ModelArguments)
    (tr : List Event)
    (h : construct_model env c ck args it = Except.ok (m, a1, tr)) :
    ((Event.constructed ConstructorKind.fastLlama ∈ tr ∨
      Event.constructed ConstructorKind.fastMistral ∈ tr) →
      it = true ∧ args.use_unsloth = true ∧
      (c.model_type = some llamaFamily ∨ c.model_type = some mistralFamily)) ∧
    (it = true → args.use_unsloth = true →
      c.model_type ≠ some llamaFamily → c.model_type ≠ some mistralFamily →
      Event.unsloth_unsupported_warning c.model_type ∈ tr ∧
      a1.use_unsloth = false ∧
      Event.constructed ConstructorKind.standard ∈ tr ∧
      ∃ m2 a2 tr2,
        construct_model env c ck { args with use_unsloth := false } it =
          Except.ok (m2, a2, tr2) ∧ m.params = m2.params) := by
  rcases construct_model_elim env c ck args it m a1 tr h with
    ⟨hc, ha, trS, hS, htr⟩ | ⟨hc, om, a2, tr2, hu, ha, hrest⟩
  · rcases standard_construct_elim env c ck args m trS hS with ⟨m0, hm0, hcase⟩
    constructor
    · intro hmem
      rcases hcase with ⟨_, _, htrS⟩ | ⟨_, _, htrS⟩ <;> subst htr <;> subst htrS <;>
        simp_all
    · intro hit hus
      rw [hit, hus] at hc
      simp at hc
  · rcases unsloth_select_elim env c args om a2 tr2 hu with
      ⟨hty, mm, hfast, homm, ha2, htr2⟩ | ⟨hty1, hty2, mm, hfast, homm, ha2, htr2⟩ |
      ⟨hty1, hty2, homm, ha2, htr2⟩
    · constructor
      · intro _
        simp [Bool.and_eq_true] at hc
        exact ⟨hc.1, hc.2, Or.inl hty⟩
      · intro _ _ hne _
        exact absurd hty hne
    · constructor
      · intro _
        simp [Bool.and_eq_true] at hc
        exact ⟨hc.1, hc.2, Or.inr hty2⟩
      · intro _ _ _ hne
        exact absurd hty2 hne
    · subst homm
      rcases hrest with ⟨hsome, _⟩ | ⟨_, trS, hS, htr⟩
      · exact absurd hsome (by simp)
      · rcases standard_construct_elim env c ck a1 m trS hS with ⟨m0, hm0, hcase⟩
        constructor
        · intro hmem
          subst htr ha2 htr2 ha
          unfold clear_adapter_if_requested at hmem
          rcases hcase with ⟨_, _, htrS⟩ | ⟨_, _, htrS⟩ <;> subst htrS <;>
            (revert hmem; split) <;> simp_all
        · intro hit hus hne1 hne2
          have hmn : a1.model_name_or_path = args.model_name_or_path := by
            subst ha ha2
            unfold clear_adapter_if_requested
            split <;> rfl
          have hcd : a1.compute_dtype = args.compute_dtype := by
            subst ha ha2
            unfold clear_adapter_if_requested
            split <;> rfl
          have hS2 : standard_construct env c ck { args with use_unsloth := false } =
              Except.ok (m, trS) := by
            rw [← standard_construct_congr env c ck a1
              { args with use_unsloth := false } (by simp [hmn]) (by simp [hcd])]
            exact hS
          refine ⟨?_, ?_, ?_, m, { args with use_unsloth := false }, trS,
            construct_model_of_standard env c ck _ it m trS (by simp) hS2, rfl⟩
          · subst htr ha ha2 htr2
            unfold clear_adapter_if_requested
            split <;> simp
          · subst ha ha2
            unfold clear_adapter_if_requested
            split <;> rfl
          · subst htr
            rcases hcase with ⟨_, _, htrS⟩ | ⟨_, _, htrS⟩ <;> subst htrS <;> simp

/-- Claim C4 (amended): the provenance tag — or the warning that tagging is
unsupported — is recorded exactly when the standard constructor built the
model; on the accelerated construction path neither occurs. -/
theorem C4_tagging_iff_standard (env : Env) (c : Config) (ck : ConfigKwargs)
    (args : ModelArguments) (it : Bool) (m : Model) (a1 : ModelArguments)
    (tr : List Event)
    (h : construct_model env c ck args it = Except.ok (m, a1, tr)) :
    ((Event.tagged ∈ tr ∨ Event.tag_warning ∈ tr) ↔
      Event.constructed ConstructorKind.standard ∈ tr) := by
  rcases construct_model_elim env c ck args it m a1 tr h with
    ⟨hc, ha, trS, hS, htr⟩ | ⟨hc, om, a2, tr2, hu, ha, hrest⟩
  · rcases standard_construct_elim env c ck args m trS hS with ⟨m0, hm0, hcase⟩
    rcases hcase with ⟨_, _, htrS⟩ | ⟨_, _, htrS⟩ <;> subst htr <;> subst htrS <;> simp
  · rcases unsloth_select_elim env c args om a2 tr2 hu with
      ⟨hty, mm, hfast, homm, ha2, htr2⟩ | ⟨hty1, hty2, mm, hfast, homm, ha2, htr2⟩ |
      ⟨hty1, hty2, homm, ha2, htr2⟩
    · subst homm
      rcases hrest with ⟨hsome, htr⟩ | ⟨hnone, _⟩
      · subst htr htr2
        unfold clear_adapter_if_requested
        split <;> simp
      · exact absurd hnone (by simp)
    · subst homm
      rcases hrest with ⟨hsome, htr⟩ | ⟨hnone, _⟩
      · subst htr htr2
        unfold clear_adapter_if_requested
        split <;> simp
      · exact absurd hnone (by simp)
    · subst homm
      rcases hrest with ⟨hsome, _⟩ | ⟨_, trS, hS, htr⟩
      · exact absurd hsome (by simp)
      · rcases standard_construct_elim env c ck a1 m trS hS with ⟨m0, hm0, hcase⟩
        rcases hcase with ⟨_, _, htrS⟩ | ⟨_, _, htrS⟩ <;> subst htr htrS htr2 <;>
          (unfold clear_adapter_if_requested; split) <;> simp

/-- Claim C1 (amended): `load_model_and_tokenizer` mutates the supplied ModelSpec in
exactly two ways — it may clear the accelerated-construction opt-in flag and it
may clear the adapter path list; every other field is returned unchanged, and
when trainable mode is off or the opt-in flag was off the whole record is
unchanged. -/
theorem C1_final_args_only_cleared (env : Env) (args : ModelArguments) (ft : FinetuningArguments)
    (it vh : Bool) (r : LoadOk)
    (h : load_model_and_tokenizer env args ft it vh = Except.ok r) :
    r.final_args.model_name_or_path = args.model_name_or_path ∧
    r.final_args.cache_dir = args.cache_dir ∧
    r.final_args.model_revision = args.model_revision ∧
    r.final_args.hf_hub_token = args.hf_hub_token ∧
    r.final_args.use_fast_tokenizer = args.use_fast_tokenizer ∧
    r.final_args.split_special_tokens = args.split_special_tokens ∧
    r.final_args.model_max_length = args.model_max_length ∧
    r.final_args.compute_dtype = args.compute_dtype ∧
    r.final_args.quantization_bit = args.quantization_bit ∧
    (r.final_args.use_unsloth = args.use_unsloth ∨ r.final_args.use_unsloth = false) ∧
    (r.final_args.adapter_name_or_path = args.adapter_name_or_path ∨
      r.final_args.adapter_name_or_path = none) ∧
    ((it = false ∨ args.use_unsloth = false) → r.final_args = args) := by
  rcases load_ok_elim env args ft it vh r h with
    ⟨tk0, cfg0, m0, a1, tr1, m3, trV, trR, htd, htk, hcfg, hcm, hvh, hrp, hr⟩
  rcases construct_model_args_adapter env _ _ args it m0 a1 tr1 hcm with
    ⟨hadap, hw, hpres, hus, hf1, hf2, hf3, hf4, hf5, hf6, hf7, hf8, hf9⟩
  subst hr
  refine ⟨hf1, hf2, hf3, hf4, hf5, hf6, hf7, hf8, hf9, ?_, ?_, ?_⟩
  · by_cases hub : a1.use_unsloth = true
    · exact Or.inl (by rw [hub, hus hub])
    · exact Or.inr (by simpa using hub)
  · rw [hadap]
    by_cases hcond : (it && args.use_unsloth && truthyList args.adapter_name_or_path) = true
    · rw [if_pos hcond]
      exact Or.inr rfl
    · rw [if_neg hcond]
      exact Or.inl rfl
  · intro hor
    apply hpres
    rcases hor with h1 | h1 <;> rw [h1] <;> simp

/-- Claim C3 (amended): the adapter request is cleared, with a warning, exactly when
trainable mode with the accelerated opt-in was requested and an adapter path
was truthy — regardless of whether the accelerated constructor actually built
the model; otherwise the original adapter request is passed to the Adapter
Initializer. -/
theorem C3_adapter_request_clearing (env : Env) (args : ModelArguments) (ft : FinetuningArguments)
    (it vh : Bool) (r : LoadOk)
    (h : load_model_and_tokenizer env args ft it vh = Except.ok r) :
    init_adapter_args r.trace =
      [if (it && args.use_unsloth && truthyList args.adapter_name_or_path) = true
       then none else args.adapter_name_or_path] ∧
    ((it && args.use_unsloth && truthyList args.adapter_name_or_path) = true →
      Event.unsloth_adapter_warning ∈ r.trace) ∧
    ((it && args.use_unsloth && truthyList args.adapter_name_or_path) = false →
      init_adapter_args r.trace = [args.adapter_name_or_path]) := by
  rcases load_ok_elim env args ft it vh r h with
    ⟨tk0, cfg0, m0, a1, tr1, m3, trV, trR, htd, htk, hcfg, hcm, hvh, hrp, hr⟩
  rcases construct_model_args_adapter env _ _ args it m0 a1 tr1 hcm with
    ⟨hadap, hw, hpres, hus, hrest⟩
  rcases construct_model_trace_filters env _ _ args it m0 a1 tr1 hcm with
    ⟨hinit1, hinf1, hpr1⟩
  have hinitV : init_adapter_args trV = [] := by
    cases vh with
    | false =>
      simp only [Bool.false_eq_true, if_false, Except.ok.injEq, Prod.mk.injEq] at hvh
      rcases hvh with ⟨h1, h2⟩
      subst h2
      rfl
    | true =>
      simp only [if_true] at hvh
      rcases vhead_stage_elim env _ a1 m3 trV hvh with ⟨p, hp, hcase⟩
      rcases hcase with ⟨_, _, htrV⟩ | ⟨ps, _, _, htrV⟩ <;> subst htrV <;> rfl
  have hinitR : init_adapter_args trR = [] := by
    rcases report_stage_elim _ it trR hrp with ⟨hne, htrR⟩
    subst htrR
    cases it <;> rfl
  subst hr
  have hmain : init_adapter_args
      (((tr1 ++
        [Event.patch_model_applied m0 (env.patch_model m0 (env.patch_tokenizer tk0) a1 it),
         Event.register_autoclass_applied,
         Event.init_adapter_applied (env.patch_model m0 (env.patch_tokenizer tk0) a1 it)
           a1.adapter_name_or_path]) ++ trV ++ trR)) = [a1.adapter_name_or_path] := by
    unfold init_adapter_args at hinit1 hinitV hinitR ⊢
    simp only [List.filterMap_append, hinit1, hinitV, hinitR, List.filterMap_cons,
      List.filterMap_nil, List.append_nil, List.nil_append]
  refine ⟨?_, ?_, ?_⟩
  · rw [hmain, hadap]
  · intro hcond
    have := hw hcond
    simp [List.mem_append]
    tauto
  · intro hcond
    rw [hmain, hadap, if_neg (by simp [hcond])]

/-- Claim C5: on every construction path, `patch_model` runs after model
instantiation and before adapter injection, and the handle passed to
`init_adapter` is exactly the handle `patch_model` produced. -/
theorem C5_patch_model_before_adapter (env : Env) (args : ModelArguments) (ft : FinetuningArguments)
    (it vh : Bool) (r : LoadOk)
    (h : load_model_and_tokenizer env args ft it vh = Except.ok r) :
    ∃ pre post mIn mOut aarg k,
      r.trace = pre ++ [Event.patch_model_applied mIn mOut,
        Event.register_autoclass_applied,
        Event.init_adapter_applied mOut aarg] ++ post ∧
      Event.constructed k ∈ pre ∧
      (∃ tk a1, mOut = env.patch_model mIn tk a1 it) := by
  rcases load_ok_elim env args ft it vh r h with
    ⟨tk0, cfg0, m0, a1, tr1, m3, trV, trR, htd, htk, hcfg, hcm, hvh, hrp, hr⟩
  rcases construct_model_has_constructed env _ _ args it m0 a1 tr1 hcm with ⟨k, hk⟩
  subst hr
  refine ⟨tr1, trV ++ trR, m0, env.patch_model m0 (env.patch_tokenizer tk0) a1 it,
    a1.adapter_name_or_path, k, ?_, hk, env.patch_tokenizer tk0, a1, rfl⟩
  simp [List.append_assoc]

/-- Claim C6: with trainable=false the Mode Finalizer disables gradient tracking on
all parameters, casts to the requested compute precision unless the model
carries quantization metadata, and sets evaluation mode; with trainable=true it
sets training mode. -/
theorem C6_mode_finalizer (env : Env) (args : ModelArguments) (ft : FinetuningArguments)
    (it vh : Bool) (r : LoadOk)
    (h : load_model_and_tokenizer env args ft it vh = Except.ok r) :
    (it = false →
      allFrozen r.model = true ∧
      r.model.training = false ∧
      ∃ mPre, r.model = finalize_mode mPre args.compute_dtype false ∧
        (truthyStr mPre.quantization_method = false →
          r.model.dtype = args.compute_dtype) ∧
        (truthyStr mPre.quantization_method = true → r.model.dtype = mPre.dtype)) ∧
    (it = true → r.model.training = true) := by
  rcases load_ok_elim env args ft it vh r h with
    ⟨tk0, cfg0, m0, a1, tr1, m3, trV, trR, htd, htk, hcfg, hcm, hvh, hrp, hr⟩
  have hdt : a1.compute_dtype = args.compute_dtype :=
    (construct_model_args_adapter env _ _ args it m0 a1 tr1 hcm).2.2.2.2.2.2.2.2.2.2.2.1
  subst hr
  constructor
  · intro hit
    subst hit
    rcases finalize_mode_not_trainable m3 a1.compute_dtype with ⟨h1, h2, h3, h4, h5⟩
    refine ⟨h2, h1, m3, ?_, ?_, ?_⟩
    · dsimp only
      rw [hdt]
    · intro hq
      dsimp only
      rw [h4, if_pos hq, hdt]
    · intro hq
      dsimp only
      rw [h4, if_neg (by simp [hq])]
  · intro hit
    subst hit
    simp only [LoadOk.model]
    rw [finalize_mode_trainable]
    rfl

/-- Claim C7 (amended): every successful run reports the trainable and total
parameter counts in an informational log line; the extra informational line is
emitted exactly when trainable=false (no warning is emitted for a zero
trainable count while trainable=true). -/
theorem C7_parameter_report (env : Env) (args : ModelArguments) (ft : FinetuningArguments)
    (it vh : Bool) (r : LoadOk)
    (h : load_model_and_tokenizer env args ft it vh = Except.ok r) :
    Event.param_report_info (count_parameters r.model).1
      (count_parameters r.model).2 ∈ r.trace ∧
    (it = false → Event.inference_expected_info ∈ r.trace) ∧
    (it = true → Event.inference_expected_info ∉ r.trace) := by
  rcases load_ok_elim env args ft it vh r h with
    ⟨tk0, cfg0, m0, a1, tr1, m3, trV, trR, htd, htk, hcfg, hcm, hvh, hrp, hr⟩
  rcases construct_model_trace_filters env _ _ args it m0 a1 tr1 hcm with
    ⟨hinit1, hinf1, hpr1⟩
  rcases report_stage_elim _ it trR hrp with ⟨hne, htrR⟩
  have hinfV : Event.inference_expected_info ∉ trV := by
    cases vh with
    | false =>
      simp only [Bool.false_eq_true, if_false, Except.ok.injEq, Prod.mk.injEq] at hvh
      rcases hvh with ⟨h1, h2⟩
      subst h2
      simp
    | true =>
      simp only [if_true] at hvh
      rcases vhead_stage_elim env _ a1 m3 trV hvh with ⟨p, hp, hcase⟩
      rcases hcase with ⟨_, _, htrV⟩ | ⟨ps, _, _, htrV⟩ <;> subst htrV <;> simp
  subst hr
  refine ⟨?_, ?_, ?_⟩
  · subst htrR
    simp [List.mem_append]
  · intro hit
    subst hit htrR
    simp [List.mem_append]
  · intro hit
    subst hit htrR
    simp only [List.mem_append]
    intro hmem
    rcases hmem with (hmem | hmem) | hmem
    · rcases hmem with hmem | hmem
      · exact hinf1 hmem
      · simp at hmem
    · exact hinfV hmem
    · simp at hmem

/-- Claim C8: the value-head restoration source is the last entry of the adapter
path list when present, otherwise the model identifier; when no checkpoint
exists at the source the stage succeeds with a fresh (unrestored) head and logs
the "no weights found" line, while a found checkpoint is loaded and logged with
the distinct "loaded" line. -/
theorem C8_valuehead_restoration (env : Env) (m : Model) (args : ModelArguments) :
    (∀ l p, args.adapter_name_or_path = some l → l.getLast? = some p →
      resolve_vhead_path args = Except.ok p) ∧
    (args.adapter_name_or_path = none →
      resolve_vhead_path args = Except.ok args.model_name_or_path) ∧
    (∀ p, resolve_vhead_path args = Except.ok p → env.vhead_checkpoints p = none →
      vhead_stage env m args =
        Except.ok (env.patch_valuehead_model (env.valuehead_from_pretrained m),
          [Event.valuehead_wrapped, Event.vhead_missing_info p])) ∧
    (∀ p ps, resolve_vhead_path args = Except.ok p →
      env.vhead_checkpoints p = some ps →
      vhead_stage env m args =
        Except.ok
          ((env.patch_valuehead_model (env.valuehead_from_pretrained m)).load_state_dict ps,
          [Event.valuehead_wrapped, Event.vhead_loaded_info p])) := by
  refine ⟨?_, ?_, ?_, ?_⟩
  · intro l p h1 h2
    unfold resolve_vhead_path
    rw [h1]
    dsimp only []
    rw [h2]
  · intro h1
    unfold resolve_vhead_path
    rw [h1]
  · intro p hp hcp
    unfold vhead_stage
    rw [hp]
    dsimp only []
    unfold load_valuehead_params
    rw [hcp]
    rfl
  · intro p ps hp hcp
    unfold vhead_stage
    rw [hp]
    dsimp only []
    unfold load_valuehead_params
    rw [hcp]
    rfl

/-- Claim C9: a failure of the artifact resolver, the tokenizer constructor, the
config constructor, or the model constructor aborts the assembly and the very
same error propagates to the caller. -/
theorem C9_error_propagation (env : Env) (args : ModelArguments) (ft : FinetuningArguments)
    (it vh : Bool) (e : Err) :
    (env.try_download_model_from_ms args = Except.error e →
      load_model_and_tokenizer env args ft it vh = Except.error e) ∧
    (env.try_download_model_from_ms args = Except.ok () →
      env.autoTokenizer_from_pretrained args.model_name_or_path
        args.use_fast_tokenizer args.split_special_tokens rightSide
        (configKwargsOf args) = Except.error e →
      load_model_and_tokenizer env args ft it vh = Except.error e) ∧
    (∀ tk0, env.try_download_model_from_ms args = Except.ok () →
      env.autoTokenizer_from_pretrained args.model_name_or_path
        args.use_fast_tokenizer args.split_special_tokens rightSide
        (configKwargsOf args) = Except.ok tk0 →
      env.autoConfig_from_pretrained args.model_name_or_path
        (configKwargsOf args) = Except.error e →
      load_model_and_tokenizer env args ft it vh = Except.error e) ∧
    (∀ tk0 cfg0, env.try_download_model_from_ms args = Except.ok () →
      env.autoTokenizer_from_pretrained args.model_name_or_path
        args.use_fast_tokenizer args.split_special_tokens rightSide
        (configKwargsOf args) = Except.ok tk0 →
      env.autoConfig_from_pretrained args.model_name_or_path
        (configKwargsOf args) = Except.ok cfg0 →
      construct_model env
        (env.patch_config cfg0 (env.patch_tokenizer tk0) args (configKwargsOf args) it)
        (configKwargsOf args) args it = Except.error e →
      load_model_and_tokenizer env args ft it vh = Except.error e) := by
  refine ⟨?_, ?_, ?_, ?_⟩
  · intro h1
    unfold load_model_and_tokenizer
    rw [h1]
  · intro h1 h2
    unfold load_model_and_tokenizer
    rw [h1]
    dsimp only []
    rw [h2]
  · intro tk0 h1 h2 h3
    unfold load_model_and_tokenizer
    rw [h1]
    dsimp only []
    rw [h2]
    dsimp only []
    rw [h3]
  · intro tk0 cfg0 h1 h2 h3 h4
    unfold load_model_and_tokenizer
    rw [h1]
    dsimp only []
    rw [h2]
    dsimp only []
    rw [h3]
    dsimp only []
    rw [h4]

/-- Claim C10: the parameter-count report divides by the total parameter count with
no guard — a model with zero total parameters makes the report step raise the
division error, so no successful run ever returns a handle with zero total
parameters. -/
theorem C10_zero_total_parameters (env : Env) (args : ModelArguments) (ft : FinetuningArguments)
    (it vh : Bool) (r : LoadOk) (m : Model) :
    ((count_parameters m).2 = 0 →
      report_stage m it = Except.error Err.zeroDivisionError) ∧
    (load_model_and_tokenizer env args ft it vh = Except.ok r →
      (count_parameters r.model).2 ≠ 0) := by
  constructor
  · intro h0
    unfold report_stage
    rw [if_pos (by simp [h0])]
  · intro h
    rcases load_ok_elim env args ft it vh r h with
      ⟨tk0, cfg0, m0, a1, tr1, m3, trV, trR, htd, htk, hcfg, hcm, hvh, hrp, hr⟩
    rcases report_stage_elim _ it trR hrp with ⟨hne, htrR⟩
    subst hr
    exact hne

/-! Concrete-run equations used by the witnesses. -/

theorem run_inf_eq :
    load_model_and_tokenizer env0 args0 ft0 false false = Except.ok run_inf := by
  decide

theorem run_fallback_adapter_eq :
    load_model_and_tokenizer envQwen argsUnslothAdapter ft0 true false =
      Except.ok run_fallback_adapter := by
  decide

theorem cmQwen_eq :
    construct_model env0 configQwen ck0 argsUnsloth true =
      Except.ok (cmQwen.1, cmQwen.2.1, cmQwen.2.2) := by
  decide

theorem cmLlama_eq :
    construct_model env0 configLlama ck0 argsUnsloth true =
      Except.ok (cmLlama.1, cmLlama.2.1, cmLlama.2.2) := by
  decide

/-! Counterexamples and witnesses. -/

/-- Counterexample to claim C1 as stated: a trainable run with the accelerated
opt-in set and an unsupported family returns the caller's ModelSpec with
`use_unsloth` cleared — the record is not immutable. -/
theorem C1_counterexample :
    argsUnsloth.use_unsloth = true ∧
    Except.map (fun r => r.final_args.use_unsloth)
      (load_model_and_tokenizer envQwen argsUnsloth ft0 true false) =
      Except.ok false := by
  decide

/-- Witness for claim C1's amended theorem at a concrete inference run. -/
theorem C1_witness : run_inf.final_args = args0 :=
  (C1_final_args_only_cleared env0 args0 ft0 false false run_inf
    run_inf_eq).2.2.2.2.2.2.2.2.2.2.2 (Or.inl rfl)

/-- Witness for claim C2 at a concrete unsupported-family selector run. -/
theorem C2_witness :
    Event.unsloth_unsupported_warning configQwen.model_type ∈ cmQwen.2.2 ∧
    cmQwen.2.1.use_unsloth = false ∧
    Event.constructed ConstructorKind.standard ∈ cmQwen.2.2 ∧
    ∃ m2 a2 tr2,
      construct_model env0 configQwen ck0 { argsUnsloth with use_unsloth := false }
        true = Except.ok (m2, a2, tr2) ∧ cmQwen.1.params = m2.params :=
  (C2_selector_policy env0 configQwen ck0 argsUnsloth true cmQwen.1 cmQwen.2.1
    cmQwen.2.2 cmQwen_eq).2 rfl rfl (by decide) (by decide)

/-- Counterexample to claim C3 as stated: on the fallback run (the accelerated
path is not taken — only the standard constructor ran) the adapter request is
still cleared and `init_adapter` receives `none`. -/
theorem C3_counterexample :
    truthyList argsUnslothAdapter.adapter_name_or_path = true ∧
    Except.map (fun r => (constructed_kinds r.trace, init_adapter_args r.trace,
      r.final_args.adapter_name_or_path))
      (load_model_and_tokenizer envQwen argsUnslothAdapter ft0 true false) =
      Except.ok ([ConstructorKind.standard], [none], none) := by
  decide

/-- Witness for claim C3's amended theorem at the concrete fallback run. -/
theorem C3_witness :
    init_adapter_args run_fallback_adapter.trace = [none] ∧
    Event.unsloth_adapter_warning ∈ run_fallback_adapter.trace := by
  have h := C3_adapter_request_clearing envQwen argsUnslothAdapter ft0 true false
    run_fallback_adapter run_fallback_adapter_eq
  refine ⟨?_, h.2.1 (by decide)⟩
  rw [h.1]
  decide

/-- Counterexample to claim C4 as stated: on the accelerated construction path
neither the provenance tag nor the tagging warning is recorded. -/
theorem C4_counterexample :
    Except.map (fun r => (constructed_kinds r.trace,
      decide (Event.tagged ∈ r.trace), decide (Event.tag_warning ∈ r.trace)))
      (load_model_and_tokenizer env0 argsUnsloth ft0 true false) =
      Except.ok ([ConstructorKind.fastLlama], false, false) := by
  decide

/-- Witness for claim C4's amended theorem at a concrete accelerated run. -/
theorem C4_witness :
    ((Event.tagged ∈ cmLlama.2.2 ∨ Event.tag_warning ∈ cmLlama.2.2) ↔
      Event.constructed ConstructorKind.standard ∈ cmLlama.2.2) :=
  C4_tagging_iff_standard env0 configLlama ck0 argsUnsloth true cmLlama.1
    cmLlama.2.1 cmLlama.2.2 cmLlama_eq

/-- Witness for claim C5 at the concrete inference run. -/
theorem C5_witness :
    ∃ pre post mIn mOut aarg k,
      run_inf.trace = pre ++ [Event.patch_model_applied mIn mOut,
        Event.register_autoclass_applied,
        Event.init_adapter_applied mOut aarg] ++ post ∧
      Event.constructed k ∈ pre ∧
      (∃ tk a1, mOut = env0.patch_model mIn tk a1 false) :=
  C5_patch_model_before_adapter env0 args0 ft0 false false run_inf run_inf_eq

/-- Witness for claim C6 at the concrete inference run. -/
theorem C6_witness :
    allFrozen run_inf.model = true ∧ run_inf.model.training = false ∧
    run_inf.model.dtype = args0.compute_dtype :=
  ⟨((C6_mode_finalizer env0 args0 ft0 false false run_inf run_inf_eq).1 rfl).1,
   ((C6_mode_finalizer env0 args0 ft0 false false run_inf run_inf_eq).1 rfl).2.1,
   by decide⟩

/-- Counterexample to claim C7 as stated: a trainable run whose adapter
initializer leaves zero trainable parameters emits no warning at all — only the
informational count report. -/
theorem C7_counterexample :
    Except.map (fun r => ((count_parameters r.model).1, warning_events r.trace,
      decide (Event.param_report_info 0 8 ∈ r.trace)))
      (load_model_and_tokenizer envFrozen args0 ft0 true false) =
      Except.ok (0, [], true) := by
  decide

/-- Witness for claim C7's amended theorem at the concrete inference run. -/
theorem C7_witness :
    Event.param_report_info (count_parameters run_inf.model).1
      (count_parameters run_inf.model).2 ∈ run_inf.trace ∧
    Event.inference_expected_info ∈ run_inf.trace :=
  ⟨(C7_parameter_report env0 args0 ft0 false false run_inf run_inf_eq).1,
   (C7_parameter_report env0 args0 ft0 false false run_inf run_inf_eq).2.1 rfl⟩

/-- Witness for claim C8: both resolution rules and both load outcomes at
concrete inputs; the two outcomes log observably different lines. -/
theorem C8_witness :
    resolve_vhead_path argsAdapter = Except.ok adapterPath2 ∧
    resolve_vhead_path args0 = Except.ok nameM ∧
    vhead_stage env0 baseModel argsAdapter =
      Except.ok (baseModel,
        [Event.valuehead_wrapped, Event.vhead_missing_info adapterPath2]) ∧
    vhead_stage envCkpt baseModel argsAdapter =
      Except.ok (baseModel.load_state_dict { payload := 7 },
        [Event.valuehead_wrapped, Event.vhead_loaded_info adapterPath2]) :=
  ⟨(C8_valuehead_restoration env0 baseModel argsAdapter).1
      [adapterPath1, adapterPath2] adapterPath2 rfl rfl,
   (C8_valuehead_restoration env0 baseModel args0).2.1 rfl,
   (C8_valuehead_restoration env0 baseModel argsAdapter).2.2.1 adapterPath2
      (by decide) rfl,
   (C8_valuehead_restoration envCkpt baseModel argsAdapter).2.2.2 adapterPath2
      { payload := 7 } (by decide) (by decide)⟩

/-- Witness for claim C9: each of the four failure points at a concrete
environment, with the same error surfacing to the caller. -/
theorem C9_witness :
    load_model_and_tokenizer envDownloadFail args0 ft0 false false =
      Except.error errDownload ∧
    load_model_and_tokenizer envTokFail args0 ft0 false false =
      Except.error errTok ∧
    load_model_and_tokenizer envCfgFail args0 ft0 false false =
      Except.error errCfg ∧
    load_model_and_tokenizer envModelFail args0 ft0 false false =
      Except.error errModel :=
  ⟨(C9_error_propagation envDownloadFail args0 ft0 false false errDownload).1 rfl,
   (C9_error_propagation envTokFail args0 ft0 false false errTok).2.1 rfl rfl,
   (C9_error_propagation envCfgFail args0 ft0 false false errCfg).2.2.1 tok0
      rfl rfl rfl,
   (C9_error_propagation envModelFail args0 ft0 false false errModel).2.2.2 tok0
      configLlama rfl rfl rfl (by decide)⟩

/-- Witness for claim C10: the report step rejects a zero-parameter model, a
successful run has a nonzero total count, and an end-to-end run over a
zero-parameter model aborts with the division error. -/
theorem C10_witness :
    report_stage emptyModel false = Except.error Err.zeroDivisionError ∧
    (count_parameters run_inf.model).2 ≠ 0 ∧
    load_model_and_tokenizer envZeroParams args0 ft0 false false =
      Except.error Err.zeroDivisionError :=
  ⟨(C10_zero_total_parameters env0 args0 ft0 false false run_inf emptyModel).1 rfl,
   (C10_zero_total_parameters env0 args0 ft0 false false run_inf emptyModel).2
      run_inf_eq,
   by decide⟩
